import Mathlib

/-!
# Verification of the GoldSrc-style player-movement kernel

Shallow embedding of `src/movement/pm_shared/pm_shared.cpp` (namespace
`cscpp::movement`) together with the data definitions of `pm_defs.hpp`.

Modelling conventions:
* `f32` scalars are modelled as exact real numbers (`ℝ`); the source's
  single-precision rounding is outside the scope of this embedding, so all
  equalities below are exact-arithmetic statements.
* `glm::vec3` becomes the `Vec3` structure; `glm::length` is the Euclidean
  norm, `glm::dot` the inner product, `glm::normalize v` is `v / |v|`.
* The `i32` bitmask `flags` and the `u16` bitmask `buttons` are modelled as
  records of named `Bool` fields, one per bit of the `PlayerFlags` /
  `InputButtons` enums; `flags &= ~FL_X` becomes a field update.
* The trace callback (`TraceFunc` field of `PlayerMove`) is passed as an
  explicit `Option TraceFunc` argument to every function that traces, so that
  the state record stays a plain first-order structure; `PM_PlayerTrace`
  reproduces the null-callback default (full-fraction trace).
* Each `void f(PlayerMove*)` becomes a state-passing function `PM → PM`;
  `PM_FlyMove` (which returns the `blocked` bitfield) returns `PM × ℕ` and its
  bump loop becomes structural recursion on the remaining bump count.
-/

noncomputable section

/-- 3-component vector of reals, the model of `glm::vec3` (`Vec3`). -/
@[ext] structure Vec3 where
  x : ℝ
  y : ℝ
  z : ℝ

namespace Vec3

/-- Componentwise sum, `glm` vector addition. -/
def add (a b : Vec3) : Vec3 := ⟨a.x + b.x, a.y + b.y, a.z + b.z⟩

/-- Componentwise difference. -/
def sub (a b : Vec3) : Vec3 := ⟨a.x - b.x, a.y - b.y, a.z - b.z⟩

/-- Scalar multiple, `v * s` / `s * v` in glm. -/
def smul (s : ℝ) (a : Vec3) : Vec3 := ⟨s * a.x, s * a.y, s * a.z⟩

/-- Componentwise division by a scalar, `v /= s` in glm. -/
def sdiv (a : Vec3) (s : ℝ) : Vec3 := ⟨a.x / s, a.y / s, a.z / s⟩

instance : Add Vec3 := ⟨add⟩
instance : Sub Vec3 := ⟨sub⟩
instance : SMul ℝ Vec3 := ⟨smul⟩

/-- The zero vector, `Vec3(0.0f)`. -/
def zero : Vec3 := ⟨0, 0, 0⟩

instance : Zero Vec3 := ⟨zero⟩

/-- `glm::dot`. -/
def dot (a b : Vec3) : ℝ := a.x * b.x + a.y * b.y + a.z * b.z

/-- `glm::length`: Euclidean norm. -/
def len (a : Vec3) : ℝ := Real.sqrt (dot a a)

@[simp] theorem add_def (a b : Vec3) :
    a + b = ⟨a.x + b.x, a.y + b.y, a.z + b.z⟩ := rfl

@[simp] theorem sub_def (a b : Vec3) :
    a - b = ⟨a.x - b.x, a.y - b.y, a.z - b.z⟩ := rfl

@[simp] theorem smul_def (s : ℝ) (a : Vec3) :
    s • a = ⟨s * a.x, s * a.y, s * a.z⟩ := rfl

@[simp] theorem zero_def : (0 : Vec3) = ⟨0, 0, 0⟩ := rfl

@[simp] theorem zero_x : Vec3.x 0 = 0 := rfl

@[simp] theorem zero_y : Vec3.y 0 = 0 := rfl

@[simp] theorem zero_z : Vec3.z 0 = 0 := rfl

theorem dot_nonneg_self (a : Vec3) : 0 ≤ dot a a := by
  unfold dot
  nlinarith [mul_self_nonneg a.x, mul_self_nonneg a.y, mul_self_nonneg a.z]

theorem len_nonneg (a : Vec3) : 0 ≤ len a := Real.sqrt_nonneg _

theorem len_eq_zero_iff (a : Vec3) : len a = 0 ↔ a = 0 := by
  unfold len
  rw [Real.sqrt_eq_zero (dot_nonneg_self a)]
  unfold dot
  constructor
  · intro h
    have hx : a.x = 0 := by
      nlinarith [mul_self_nonneg a.x, mul_self_nonneg a.y, mul_self_nonneg a.z]
    have hy : a.y = 0 := by
      nlinarith [mul_self_nonneg a.x, mul_self_nonneg a.y, mul_self_nonneg a.z]
    have hz : a.z = 0 := by
      nlinarith [mul_self_nonneg a.x, mul_self_nonneg a.y, mul_self_nonneg a.z]
    have ha : a = ⟨a.x, a.y, a.z⟩ := rfl
    rw [ha, hx, hy, hz]; rfl
  · intro h; rw [h]; simp

theorem len_smul (s : ℝ) (a : Vec3) : len (s • a) = |s| * len a := by
  unfold len dot
  have h : (s • a).x * (s • a).x + (s • a).y * (s • a).y + (s • a).z * (s • a).z
      = s ^ 2 * (a.x * a.x + a.y * a.y + a.z * a.z) := by
    simp [smul_def]; ring
  rw [h, Real.sqrt_mul (sq_nonneg s), Real.sqrt_sq_eq_abs]

theorem len_known (a : Vec3) (r : ℝ) (hr : 0 ≤ r)
    (h : dot a a = r ^ 2) : len a = r := by
  unfold len
  rw [h, Real.sqrt_sq hr]

end Vec3

open Vec3 (dot len)

/-! ## Constants from `pm_defs.hpp` -/

namespace pmove

/-- `MAX_CLIP_PLANES = 5`. -/
def MAX_CLIP_PLANES : ℕ := 5

/-- `MAX_BUMPS = 4`. -/
def MAX_BUMPS : ℕ := 4

/-- `GROUND_CHECK_DIST = 2.0f`. -/
def GROUND_CHECK_DIST : ℝ := 2

/-- `STOP_EPSILON = 0.1f`. -/
def STOP_EPSILON : ℝ := 0.1

/-- `MAX_FLOOR_NORMAL = 0.7f`. -/
def MAX_FLOOR_NORMAL : ℝ := 0.7

/-- `FALL_PUNCH_THRESHOLD = 350.0f`. -/
def FALL_PUNCH_THRESHOLD : ℝ := 350

/-- `FALL_DAMAGE_THRESHOLD = 580.0f`. -/
def FALL_DAMAGE_THRESHOLD : ℝ := 580

/-- `DEAD_MAXSPEED = 1.0f`. -/
def DEAD_MAXSPEED : ℝ := 1

/-- `LADDER_SPEED = 200.0f`. -/
def LADDER_SPEED : ℝ := 200

end pmove

namespace hull

/-- `STANDING_MAXS = {16, 16, 36}`. -/
def STANDING_MAXS : Vec3 := ⟨16, 16, 36⟩

/-- `DUCKED_MAXS = {16, 16, 18}`. -/
def DUCKED_MAXS : Vec3 := ⟨16, 16, 18⟩

/-- `DUCK_TIME = 0.4f`. -/
def DUCK_TIME : ℝ := 0.4

end hull

/-- Hull index `HULL_STANDING = 0`. -/
def HULL_STANDING : ℤ := 0

/-- Hull index `HULL_DUCKED = 1`. -/
def HULL_DUCKED : ℤ := 1

/-- `MoveVars` of `pm_defs.hpp` with its member-initializer defaults
(`sv_*` console variables). Fields unused by the movement code
(`spectatorMaxSpeed`, `zMax`, `waveHeight`, `footsteps`, roll settings,
`bounce`, `edgeFriction`) are kept for structural fidelity. -/
structure MoveVars where
  gravity : ℝ := 800
  stopSpeed : ℝ := 100
  maxSpeed : ℝ := 320
  spectatorMaxSpeed : ℝ := 500
  accelerate : ℝ := 10
  airAccelerate : ℝ := 10
  waterAccelerate : ℝ := 10
  friction : ℝ := 4
  edgeFriction : ℝ := 2
  waterFriction : ℝ := 1
  entGravity : ℝ := 1
  bounce : ℝ := 1
  stepSize : ℝ := 18
  maxVelocity : ℝ := 2000
  zMax : ℝ := 4096
  waveHeight : ℝ := 0
  footsteps : Bool := true
  rollAngle : ℝ := 0
  rollSpeed : ℝ := 0
  jumpSpeed : ℝ := 268.3281572999748
  airSpeedCap : ℝ := 30

/-- The `PlayerFlags` bitmask (`i32 flags`), one `Bool` per `FL_*` bit. -/
structure Flags where
  onGroundFL : Bool := false
  ducking : Bool := false
  waterJump : Bool := false
  onTrain : Bool := false
  inRain : Bool := false
  frozen : Bool := false
  atControls : Bool := false
  client : Bool := false
  fakeClient : Bool := false
  inWater : Bool := false
  deriving Repr, DecidableEq

/-- The `InputButtons` bitmask (`u16 buttons`), one `Bool` per `IN_*` bit. -/
structure Buttons where
  attack : Bool := false
  jump : Bool := false
  duck : Bool := false
  moveForward : Bool := false
  back : Bool := false
  useKey : Bool := false
  moveLeft : Bool := false
  moveRight : Bool := false
  attack2 : Bool := false
  reload : Bool := false
  speed : Bool := false
  score : Bool := false
  deriving Repr, DecidableEq

/-- `TraceResult` of `pm_defs.hpp` with its defaults; the anonymous `plane`
struct is flattened into `planeNormal` / `planeDist`. -/
structure TraceResult where
  allSolid : Bool := false
  startSolid : Bool := false
  inOpen : Bool := false
  inWater : Bool := false
  fraction : ℝ := 1
  endPos : Vec3 := 0
  planeNormal : Vec3 := 0
  planeDist : ℝ := 0
  entity : ℤ := -1
  hitgroup : ℤ := 0

/-- The `PlayerMove` state (`pm_shared.hpp`), with the C++ member-initializer
defaults. The hull min/max tables (`playerMins`/`playerMaxs`), which are fixed
constants only read by the external trace callback, and the callback pointer
itself (passed separately, see the module docstring) are not fields here. -/
structure PM where
  origin : Vec3 := 0
  velocity : Vec3 := 0
  baseVelocity : Vec3 := 0
  viewAngles : Vec3 := 0
  punchAngle : Vec3 := 0
  forwardMove : ℝ := 0
  sideMove : ℝ := 0
  upMove : ℝ := 0
  buttons : Buttons := {}
  oldButtons : Buttons := {}
  frameTime : ℝ := 0
  time : ℝ := 0
  flags : Flags := {}
  oldFlags : Flags := {}
  onGround : ℤ := -1
  waterLevel : ℤ := 0
  waterType : ℤ := 0
  dead : Bool := false
  useHull : ℤ := 0
  duckTime : ℝ := 0
  inDuck : Bool := false
  timeStepSound : ℤ := 0
  stepLeft : ℤ := 0
  fallVelocity : ℝ := 0
  ladderNormal : Vec3 := 0
  onLadder : Bool := false
  moveVars : MoveVars := {}
  maxSpeed : ℝ := 320
  clientMaxSpeed : ℝ := 320
  forward : Vec3 := 0
  right : Vec3 := 0
  up : Vec3 := 0

/-- The collision callback type (`TraceFunc`): it receives the (const) player
state, start and end points, and the hull selector. -/
def TraceFunc : Type := PM → Vec3 → Vec3 → ℤ → TraceResult

/-- `PM_PlayerTrace`: dispatch to the callback with `pm->useHull`, or return
the default full-fraction trace when the callback is absent (`nullptr`). -/
def PM_PlayerTrace (tf : Option TraceFunc) (pm : PM) (start dst : Vec3) :
    TraceResult :=
  match tf with
  | some f => f pm start dst pm.useHull
  | none => { fraction := 1, endPos := dst }

/-! ## Core physics functions -/

/-- `PM_Accelerate`: ground/water acceleration toward `wishDir`. -/
def PM_Accelerate (pm : PM) (wishDir : Vec3) (wishSpeed accel : ℝ) : PM :=
  let currentSpeed := dot pm.velocity wishDir
  let addSpeed := wishSpeed - currentSpeed
  if addSpeed ≤ 0 then pm
  else
    let accelSpeed0 := accel * pm.frameTime * wishSpeed
    let accelSpeed := if accelSpeed0 > addSpeed then addSpeed else accelSpeed0
    { pm with velocity := pm.velocity + accelSpeed • wishDir }

/-- `PM_AirAccelerate`: like `PM_Accelerate` but `wishSpeed` is first capped
to `moveVars->airSpeedCap` when computing `addSpeed`; note that the
`accelSpeed` product uses the *uncapped* `wishSpeed`, exactly as the source
does (`accel * wishSpeed * frameTime`). -/
def PM_AirAccelerate (pm : PM) (wishDir : Vec3) (wishSpeed accel : ℝ) : PM :=
  let wishSpd :=
    if wishSpeed > pm.moveVars.airSpeedCap then pm.moveVars.airSpeedCap
    else wishSpeed
  let currentSpeed := dot pm.velocity wishDir
  let addSpeed := wishSpd - currentSpeed
  if addSpeed ≤ 0 then pm
  else
    let accelSpeed0 := accel * wishSpeed * pm.frameTime
    let accelSpeed := if accelSpeed0 > addSpeed then addSpeed else accelSpeed0
    { pm with velocity := pm.velocity + accelSpeed • wishDir }

/-- `PM_Friction`: ground friction; drop is zero while airborne. -/
def PM_Friction (pm : PM) : PM :=
  let speed := len pm.velocity
  if speed < pmove.STOP_EPSILON then pm
  else
    let drop :=
      if pm.flags.onGroundFL then
        (if speed < pm.moveVars.stopSpeed then pm.moveVars.stopSpeed else speed)
          * pm.moveVars.friction * pm.frameTime
      else 0
    let newSpeed0 := speed - drop
    let newSpeed := if newSpeed0 < 0 then 0 else newSpeed0
    if newSpeed ≠ speed then { pm with velocity := (newSpeed / speed) • pm.velocity }
    else pm

/-- `PM_AddGravity`: gravity plus the pending vertical base velocity, which is
consumed. -/
def PM_AddGravity (pm : PM) : PM :=
  let gravity :=
    if pm.moveVars.entGravity ≠ 0 then pm.moveVars.gravity * pm.moveVars.entGravity
    else pm.moveVars.gravity
  let vz := pm.velocity.z - gravity * pm.frameTime + pm.baseVelocity.z * pm.frameTime
  { pm with velocity := ⟨pm.velocity.x, pm.velocity.y, vz⟩,
            baseVelocity := ⟨pm.baseVelocity.x, pm.baseVelocity.y, 0⟩ }

/-- `PM_ClipVelocity`: slide `vin` along the plane `normal`; components below
`STOP_EPSILON` in magnitude are snapped to zero. -/
def PM_ClipVelocity (vin normal : Vec3) (overbounce : ℝ) : Vec3 :=
  let backoff := dot vin normal * overbounce
  let out : Vec3 := ⟨vin.x - backoff * normal.x, vin.y - backoff * normal.y,
                     vin.z - backoff * normal.z⟩
  ⟨if |out.x| < pmove.STOP_EPSILON then 0 else out.x,
   if |out.y| < pmove.STOP_EPSILON then 0 else out.y,
   if |out.z| < pmove.STOP_EPSILON then 0 else out.z⟩

/-- `PM_CheckVelocity`'s per-component clamp: first the upper, then the lower
bound, exactly in the source's order. -/
def clampComp (maxVel v : ℝ) : ℝ :=
  let v1 := if v > maxVel then maxVel else v
  if v1 < -maxVel then -maxVel else v1

/-- `PM_CheckVelocity`: clamp every velocity component to
`±moveVars->maxVelocity`. -/
def PM_CheckVelocity (pm : PM) : PM :=
  let m := pm.moveVars.maxVelocity
  { pm with velocity := ⟨clampComp m pm.velocity.x, clampComp m pm.velocity.y,
                         clampComp m pm.velocity.z⟩ }

/-! ## Movement and collision -/

/-- One iteration state of `PM_FlyMove`'s bump loop, recursing on the number
of remaining bumps. `originalVelocity` is the entry velocity, which the source
clips against the newest plane on every bump. -/
def flyStep (tf : Option TraceFunc) (originalVelocity : Vec3) :
    ℕ → PM → ℝ → List Vec3 → ℕ → PM × ℕ
  | 0, pm, _, _, blocked => (pm, blocked)
  | fuel + 1, pm, timeLeft, planes, blocked =>
    if len pm.velocity = 0 then (pm, blocked)
    else
      let dst := pm.origin + timeLeft • pm.velocity
      let trace := PM_PlayerTrace tf pm pm.origin dst
      if trace.allSolid then ({ pm with velocity := 0 }, 4)
      else
        let pm' := if trace.fraction > 0 then { pm with origin := trace.endPos } else pm
        let planes' := if trace.fraction > 0 then [] else planes
        if trace.fraction = 1 then (pm', blocked)
        else
          let timeLeft' := timeLeft - timeLeft * trace.fraction
          let blocked' := blocked |||
            (if trace.planeNormal.z > pmove.MAX_FLOOR_NORMAL then 1 else 0) |||
            (if trace.planeNormal.z = 0 then 2 else 0)
          let planes'' := planes' ++ [trace.planeNormal]
          if pmove.MAX_CLIP_PLANES ≤ planes''.length then
            ({ pm' with velocity := 0 }, blocked')
          else
            let pm'' := { pm' with
              velocity := PM_ClipVelocity originalVelocity trace.planeNormal 1 }
            if planes''.all (fun p => ¬ dot pm''.velocity p < 0) then (pm'', blocked')
            else flyStep tf originalVelocity fuel pm'' timeLeft' planes'' blocked'

/-- `PM_FlyMove`: up to `MAX_BUMPS` sweep-and-clip iterations; returns the
updated state and the blocked-direction bitfield (4 when stuck in solid). -/
def PM_FlyMove (tf : Option TraceFunc) (pm : PM) : PM × ℕ :=
  flyStep tf pm.velocity pmove.MAX_BUMPS pm pm.frameTime [] 0

/-- `PM_StepMove`: try to climb a stair step when the direct ground sweep was
blocked (`trace` is that blocked sweep's result, `dest` its target). -/
def PM_StepMove (tf : Option TraceFunc) (pm : PM) (dest : Vec3)
    (trace : TraceResult) : PM :=
  let originalOrigin := pm.origin
  let stepUp : Vec3 := ⟨pm.origin.x, pm.origin.y, pm.origin.z + pm.moveVars.stepSize⟩
  let upTrace := PM_PlayerTrace tf pm pm.origin stepUp
  if upTrace.allSolid then
    { pm with velocity := PM_ClipVelocity pm.velocity trace.planeNormal 1,
              origin := trace.endPos }
  else
    let stepDest : Vec3 := ⟨dest.x, dest.y, upTrace.endPos.z⟩
    let forwardTrace := PM_PlayerTrace tf pm upTrace.endPos stepDest
    let stepDown : Vec3 := ⟨forwardTrace.endPos.x, forwardTrace.endPos.y, originalOrigin.z⟩
    let downTrace := PM_PlayerTrace tf pm forwardTrace.endPos stepDown
    if (¬ downTrace.startSolid ∧ ¬ downTrace.allSolid) ∧
        downTrace.planeNormal.z > pmove.MAX_FLOOR_NORMAL then
      { pm with origin := downTrace.endPos }
    else
      { pm with origin := trace.endPos,
                velocity := PM_ClipVelocity pm.velocity trace.planeNormal 1 }

/-! ## State functions -/

/-- `PM_CategorizePosition`: probe `GROUND_CHECK_DIST` below the origin and
set the on-ground flag, the ground-entity id, and (when the trace made partial
progress) snap the origin to the trace end. -/
def PM_CategorizePosition (tf : Option TraceFunc) (pm0 : PM) : PM :=
  let pm := { pm0 with onGround := -1 }
  let point : Vec3 := ⟨pm.origin.x, pm.origin.y, pm.origin.z - pmove.GROUND_CHECK_DIST⟩
  let trace := PM_PlayerTrace tf pm pm.origin point
  if trace.fraction = 1 then { pm with flags.onGroundFL := false }
  else if trace.planeNormal.z < pmove.MAX_FLOOR_NORMAL then
    { pm with flags.onGroundFL := false }
  else if pm.velocity.z > 180 then { pm with flags.onGroundFL := false }
  else
    let pm' := { pm with flags.onGroundFL := true, onGround := trace.entity }
    if trace.fraction < 1 ∧ trace.fraction ≠ 0 then { pm' with origin := trace.endPos }
    else pm'

/-- `PM_Jump`: edge-triggered jump; leaves the ground, sets the vertical jump
speed, consumes positive vertical base velocity, resets fall tracking. -/
def PM_Jump (pm : PM) : PM :=
  if pm.oldButtons.jump then pm
  else if ¬ pm.flags.onGroundFL then pm
  else
    let pm1 := { pm with flags.onGroundFL := false, onGround := -1 }
    let pm2 := { pm1 with
      velocity := ⟨pm1.velocity.x, pm1.velocity.y, pm1.moveVars.jumpSpeed⟩ }
    let pm3 :=
      if pm2.baseVelocity.z > 0 then
        { pm2 with
          velocity := ⟨pm2.velocity.x, pm2.velocity.y, pm2.velocity.z + pm2.baseVelocity.z⟩,
          baseVelocity := ⟨pm2.baseVelocity.x, pm2.baseVelocity.y, 0⟩ }
      else pm2
    { pm3 with fallVelocity := 0 }

/-- First block of `PM_Duck`: duck start on the duck button, or the stand-up
attempt when the button is released. The stand-up test trace runs with the
standing hull selected (the source's saved-hull dance restores `useHull`
afterwards). -/
def PM_DuckButtons (tf : Option TraceFunc) (pm : PM) : PM :=
  if pm.buttons.duck then
    if ¬ pm.flags.ducking ∧ ¬ pm.inDuck then
      { pm with inDuck := true, duckTime := hull.DUCK_TIME }
    else pm
  else
    if pm.flags.ducking ∨ pm.inDuck then
      let newOrigin : Vec3 := ⟨pm.origin.x, pm.origin.y,
        pm.origin.z + (hull.STANDING_MAXS.z - hull.DUCKED_MAXS.z)⟩
      let trace := PM_PlayerTrace tf { pm with useHull := HULL_STANDING }
        pm.origin newOrigin
      if ¬ trace.startSolid then
        { pm with flags.ducking := false, useHull := HULL_STANDING,
                  inDuck := false, origin := newOrigin }
      else pm
    else pm

/-- Second block of `PM_Duck`: the `inDuck` transition countdown — decrement
`duckTime` by `frameTime` and complete the transition when the timer runs out
or ground contact is lost. -/
def PM_DuckTransition (pm1 : PM) : PM :=
  if pm1.inDuck then
    let pm2 := { pm1 with duckTime := pm1.duckTime - pm1.frameTime }
    if pm2.duckTime ≤ 0 ∨ pm2.flags.onGroundFL = false then
      { pm2 with flags.ducking := true, useHull := HULL_DUCKED, inDuck := false }
    else pm2
  else pm1

/-- `PM_Duck`: the two sequential blocks above, in source order. -/
def PM_Duck (tf : Option TraceFunc) (pm : PM) : PM :=
  PM_DuckTransition (PM_DuckButtons tf pm)

/-- `PM_CheckFalling`: on landing, convert tracked fall speed into a capped
punch angle and reset it; while airborne, track the peak downward speed. (The
fall-damage branch of the source only logs.) -/
def PM_CheckFalling (pm : PM) : PM :=
  if pm.flags.onGroundFL then
    let pm1 :=
      if pm.fallVelocity ≥ pmove.FALL_PUNCH_THRESHOLD then
        let punchAmount0 := pm.fallVelocity * 0.013
        let punchAmount := if punchAmount0 > 8 then 8 else punchAmount0
        { pm with punchAngle := ⟨punchAmount, pm.punchAngle.y, pm.punchAngle.z⟩ }
      else pm
    { pm1 with fallVelocity := 0 }
  else
    if pm.velocity.z < 0 ∧ -pm.velocity.z > pm.fallVelocity then
      { pm with fallVelocity := -pm.velocity.z }
    else pm

/-- `PM_CheckLadder`: the source's simplified check always clears `onLadder`
and returns `false`. -/
def PM_CheckLadder (pm : PM) : PM × Bool :=
  ({ pm with onLadder := false }, false)

/-- `PM_LadderMove`: velocity fully overridden from the climb inputs, then a
sliding move. -/
def PM_LadderMove (tf : Option TraceFunc) (pm : PM) : PM :=
  let speed := if pm.buttons.speed then pmove.LADDER_SPEED * 0.5 else pmove.LADDER_SPEED
  let pm1 := { pm with velocity := (0 : Vec3) }
  let pm2 :=
    if pm1.forwardMove ≠ 0 then
      if pm1.viewAngles.x < 0 then
        { pm1 with velocity := ⟨pm1.velocity.x, pm1.velocity.y,
            speed * (if pm1.forwardMove > 0 then 1 else -1)⟩ }
      else
        { pm1 with velocity := ⟨pm1.velocity.x, pm1.velocity.y,
            speed * (if pm1.forwardMove > 0 then -1 else 1)⟩ }
    else pm1
  let pm3 :=
    if pm2.sideMove ≠ 0 then
      { pm2 with velocity := pm2.velocity + (pm2.sideMove * speed) • pm2.right }
    else pm2
  (PM_FlyMove tf pm3).1

/-! ## Movement modes -/

/-- `PM_WalkMove`: ground movement — friction, acceleration, then a single
sweep with a step-up fallback. -/
def PM_WalkMove (tf : Option TraceFunc) (pm : PM) : PM :=
  let wishVel : Vec3 :=
    ⟨pm.forward.x * pm.forwardMove + pm.right.x * pm.sideMove,
     pm.forward.y * pm.forwardMove + pm.right.y * pm.sideMove, 0⟩
  let wishDir0 := wishVel
  let wishSpeed0 := len wishDir0
  let wishDir := if wishSpeed0 > pmove.STOP_EPSILON then wishDir0.sdiv wishSpeed0
    else wishDir0
  let wishSpeed1 := wishSpeed0 * pm.maxSpeed
  let wishSpeed2 := if wishSpeed1 > pm.maxSpeed then pm.maxSpeed else wishSpeed1
  let wishSpeed := if pm.buttons.speed then wishSpeed2 * 0.52 else wishSpeed2
  let pm1 := PM_Friction pm
  let pm2 := PM_Accelerate pm1 wishDir wishSpeed pm1.moveVars.accelerate
  let pm3 := PM_CheckVelocity pm2
  let speed := len pm3.velocity
  if speed < 1 then { pm3 with velocity := 0 }
  else
    let dest := pm3.origin + pm3.frameTime • pm3.velocity
    let trace := PM_PlayerTrace tf pm3 pm3.origin dest
    if trace.fraction = 1 then { pm3 with origin := dest }
    else PM_StepMove tf pm3 dest trace

/-- `PM_AirMove`: air movement — capped-wishspeed air acceleration, gravity,
then multi-bump sliding. -/
def PM_AirMove (tf : Option TraceFunc) (pm : PM) : PM :=
  let wishVel : Vec3 :=
    ⟨pm.forward.x * pm.forwardMove + pm.right.x * pm.sideMove,
     pm.forward.y * pm.forwardMove + pm.right.y * pm.sideMove, 0⟩
  let wishDir0 := wishVel
  let wishSpeed0 := len wishDir0
  let wishDir := if wishSpeed0 > pmove.STOP_EPSILON then wishDir0.sdiv wishSpeed0
    else wishDir0
  let wishSpeed := wishSpeed0 * pm.maxSpeed
  let pm1 := PM_AirAccelerate pm wishDir wishSpeed pm.moveVars.airAccelerate
  let pm2 := PM_AddGravity pm1
  (PM_FlyMove tf pm2).1

/-- `PM_WaterMove`: 3-axis wish vector, 80% speed cap, continuous water
friction, shared acceleration, sliding move. -/
def PM_WaterMove (tf : Option TraceFunc) (pm : PM) : PM :=
  let wishVel : Vec3 :=
    ⟨pm.forward.x * pm.forwardMove + pm.right.x * pm.sideMove,
     pm.forward.y * pm.forwardMove + pm.right.y * pm.sideMove,
     pm.forward.z * pm.forwardMove + pm.upMove⟩
  let wishDir0 := wishVel
  let wishSpeed0 := len wishDir0
  let wishDir := if wishSpeed0 > pmove.STOP_EPSILON then wishDir0.sdiv wishSpeed0
    else wishDir0
  let wishSpeed1 := wishSpeed0 * pm.maxSpeed
  let waterMax := pm.maxSpeed * 0.8
  let wishSpeed := if wishSpeed1 > waterMax then waterMax else wishSpeed1
  let speed := len pm.velocity
  let pm1 :=
    if speed > 0 then
      let newSpeed0 := speed - pm.frameTime * speed * pm.moveVars.waterFriction
      let newSpeed := if newSpeed0 < 0 then 0 else newSpeed0
      { pm with velocity := (newSpeed / speed) • pm.velocity }
    else pm
  let pm2 := PM_Accelerate pm1 wishDir wishSpeed pm1.moveVars.waterAccelerate
  (PM_FlyMove tf pm2).1

/-! ## View vectors and the dispatcher -/

/-- Modelled from the spec: `math::angleVectors` (declared in
`core/math/math.hpp`, which is not among the provided sources) — "Calculate
direction vectors from view angles"; basis vectors derived from pitch/yaw/roll
view angles in degrees, in the engine's usual convention. -/
def angleVectors (angles : Vec3) : Vec3 × Vec3 × Vec3 :=
  let deg : ℝ := Real.pi / 180
  let sp := Real.sin (angles.x * deg)
  let cp := Real.cos (angles.x * deg)
  let sy := Real.sin (angles.y * deg)
  let cy := Real.cos (angles.y * deg)
  let sr := Real.sin (angles.z * deg)
  let cr := Real.cos (angles.z * deg)
  (⟨cp * cy, cp * sy, -sp⟩,
   ⟨-(sr * sp * cy) + cr * sy, -(sr * sp * sy) - cr * cy, -(sr * cp)⟩,
   ⟨cr * sp * cy + sr * sy, cr * sp * sy - sr * cy, cr * cp⟩)

/-- `PM_AngleVectors`: recompute `forward`/`right`/`up` from the view angles,
flatten `forward` and `right` to the horizontal plane and re-normalize them
when long enough. -/
def PM_AngleVectors (pm : PM) : PM :=
  let av := angleVectors pm.viewAngles
  let f0 : Vec3 := ⟨av.1.x, av.1.y, 0⟩
  let r0 : Vec3 := ⟨av.2.1.x, av.2.1.y, 0⟩
  let f := if len f0 > pmove.STOP_EPSILON then f0.sdiv (len f0) else f0
  let r := if len r0 > pmove.STOP_EPSILON then r0.sdiv (len r0) else r0
  { pm with forward := f, right := r, up := av.2.2 }

/-- `PM_PlayerMove`: the per-tick dispatcher. Early `return`s (frozen, dead,
ladder, water) skip the tail (re-categorization, fall accounting, velocity
clamp, old-state persistence) exactly as in the source. -/
def PM_PlayerMove (tf : Option TraceFunc) (c0 : PM) : PM :=
  let c1 := PM_AngleVectors c0
  let c2 := PM_CategorizePosition tf c1
  if c2.flags.frozen then c2
  else if c2.dead then { c2 with maxSpeed := pmove.DEAD_MAXSPEED }
  else
    let c3 := PM_Duck tf c2
    let ck := PM_CheckLadder c3
    if ck.2 then PM_LadderMove tf ck.1
    else
      let c4 := ck.1
      if 2 ≤ c4.waterLevel then PM_WaterMove tf c4
      else
        let c5 :=
          if c4.flags.onGroundFL then
            let cj := if c4.buttons.jump then PM_Jump c4
              else { c4 with flags.waterJump := false }
            if cj.flags.onGroundFL then PM_WalkMove tf cj else cj
          else PM_AirMove tf c4
        let c6 := PM_CategorizePosition tf c5
        let c7 := PM_CheckFalling c6
        let c8 := PM_CheckVelocity c7
        { c8 with oldButtons := c8.buttons, oldFlags := c8.flags }

/-- Defined from the claim (refinement target): the dispatcher with the ladder
branch removed — `PM_CheckLadder` still runs for its `onLadder` update, but
`PM_LadderMove` is never consulted. -/
def PM_PlayerMoveNoLadder (tf : Option TraceFunc) (c0 : PM) : PM :=
  let c1 := PM_AngleVectors c0
  let c2 := PM_CategorizePosition tf c1
  if c2.flags.frozen then c2
  else if c2.dead then { c2 with maxSpeed := pmove.DEAD_MAXSPEED }
  else
    let c3 := PM_Duck tf c2
    let c4 := (PM_CheckLadder c3).1
    if 2 ≤ c4.waterLevel then PM_WaterMove tf c4
    else
      let c5 :=
        if c4.flags.onGroundFL then
          let cj := if c4.buttons.jump then PM_Jump c4
            else { c4 with flags.waterJump := false }
          if cj.flags.onGroundFL then PM_WalkMove tf cj else cj
        else PM_AirMove tf c4
      let c6 := PM_CategorizePosition tf c5
      let c7 := PM_CheckFalling c6
      let c8 := PM_CheckVelocity c7
      { c8 with oldButtons := c8.buttons, oldFlags := c8.flags }

/-- A `PlayerMove` value with all the C++ member-initializer defaults. -/
def pmDefault : PM := {}

/-! ## Helper lemmas -/

theorem ite_gt_right_eq_min (x y : ℝ) : (if x > y then y else x) = min x y := by
  split_ifs with h
  · exact (min_eq_right (le_of_lt h)).symm
  · exact (min_eq_left (not_lt.1 h)).symm

theorem dot_add_left (u v w : Vec3) : dot (u + v) w = dot u w + dot v w := by
  simp only [Vec3.add_def, Vec3.dot]; ring

theorem dot_smul_left (k : ℝ) (u w : Vec3) : dot (k • u) w = k * dot u w := by
  simp only [Vec3.smul_def, Vec3.dot]; ring

/-! ## Concrete contexts used by witnesses and counterexamples -/

/-- Context for the C1 scenario: airborne defaults with a 128 Hz tick. -/
def cAirTick : PM := { frameTime := 1 / 128 }

/-- Context exposing the uncapped `accelSpeed` product of `PM_AirAccelerate`:
half-second tick, everything else default. -/
def cAir : PM := { frameTime := 1 / 2 }


/-! ## C1 — air acceleration -/

/-- C1 (amended): `PM_AirAccelerate` first caps `wishSpeed` to
`moveVars->airSpeedCap` before computing `addSpeed`, and then adds
`min(rate · wishSpeed · frameTime, addSpeed)` along the wish direction, where
the rate product uses the *uncapped* `wishSpeed`; in the concrete scenario
(zero velocity, wish direction `(1,0,0)`, wish speed 30 = air-speed-cap,
rate 10, `frameTime = 1/128`) the resulting velocity is exactly
`(10·30·(1/128), 0, 0)`, i.e. horizontal speed 2.34375 units/sec. -/
theorem airAccelerate_spec (c : PM) (d : Vec3) (s a : ℝ) :
    ((min s c.moveVars.airSpeedCap - dot c.velocity d ≤ 0 →
        PM_AirAccelerate c d s a = c) ∧
     (0 < min s c.moveVars.airSpeedCap - dot c.velocity d →
        PM_AirAccelerate c d s a = { c with velocity := c.velocity +
          (min (a * s * c.frameTime)
            (min s c.moveVars.airSpeedCap - dot c.velocity d)) • d })) ∧
    (PM_AirAccelerate cAirTick ⟨1, 0, 0⟩ 30 10).velocity
      = ⟨10 * 30 * (1 / 128), 0, 0⟩ := by
  refine ⟨⟨?_, ?_⟩, ?_⟩
  · intro h
    unfold PM_AirAccelerate
    simp only [ite_gt_right_eq_min]
    rw [if_pos h]
  · intro h
    unfold PM_AirAccelerate
    simp only [ite_gt_right_eq_min]
    rw [if_neg (not_le.2 h)]
  · unfold PM_AirAccelerate cAirTick
    norm_num [Vec3.dot, Vec3.add_def, Vec3.smul_def]

/-- Witness for C1: at `cAir` (uncapped wish speed 60, rate 1, `frameTime`
1/2) the positive-`addSpeed` branch applies and adds
`min(1·60·(1/2), 30 − 0) = 30` along the wish direction. -/
theorem airAccelerate_spec_witness :
    (0 < min (60 : ℝ) cAir.moveVars.airSpeedCap - dot cAir.velocity ⟨1, 0, 0⟩) ∧
    PM_AirAccelerate cAir ⟨1, 0, 0⟩ 60 1 = { cAir with velocity := cAir.velocity +
      (min ((1 : ℝ) * 60 * cAir.frameTime)
        (min 60 cAir.moveVars.airSpeedCap - dot cAir.velocity ⟨1, 0, 0⟩)) • ⟨1, 0, 0⟩ } :=
  ⟨by norm_num [cAir, Vec3.dot],
   (airAccelerate_spec cAir ⟨1, 0, 0⟩ 60 1).1.2 (by norm_num [cAir, Vec3.dot])⟩

/-- Counterexample for C1 as stated: the claim's formula
`min(rate · frameTime · cappedWishSpeed, addSpeed)` predicts an increment of
`min(1·(1/2)·30, 30) = 15` at `cAir` with wish speed 60, but the code (whose
rate product uses the uncapped wish speed) adds
`min(1·60·(1/2), 30) = 30`. -/
theorem airAccelerate_cap_counterexample :
    (PM_AirAccelerate cAir ⟨1, 0, 0⟩ 60 1).velocity ≠
      cAir.velocity + (min ((1 : ℝ) * cAir.frameTime * (min 60 cAir.moveVars.airSpeedCap))
        (min 60 cAir.moveVars.airSpeedCap - dot cAir.velocity ⟨1, 0, 0⟩)) • ⟨1, 0, 0⟩ := by
  unfold PM_AirAccelerate cAir
  norm_num [Vec3.dot, Vec3.add_def, Vec3.smul_def]

/-! ## C2 — ground acceleration -/

/-- C2 (amended): `PM_Accelerate` either leaves the state unchanged (when
`wishSpeed − dot(velocity, wishDir) ≤ 0`) or adds
`min(accelRate · frameTime · wishSpeed, addSpeed) · wishDir`; for a unit wish
direction, nonnegative wish speed, nonnegative acceleration rate and positive
frame time it never decreases `dot(velocity, wishDir)`, never raises it above
`wishSpeed` (beyond where it already was), and never changes the component of
velocity orthogonal to the wish direction. The nonnegativity of the rate is
the amendment: a negative rate makes the added increment negative. -/
theorem accelerate_spec (c : PM) (d : Vec3) (s a : ℝ)
    (hd : dot d d = 1) (hs : 0 ≤ s) (ha : 0 ≤ a) (hft : 0 < c.frameTime) :
    ((s - dot c.velocity d ≤ 0 → PM_Accelerate c d s a = c) ∧
     (0 < s - dot c.velocity d → PM_Accelerate c d s a = { c with velocity :=
        c.velocity + (min (a * c.frameTime * s) (s - dot c.velocity d)) • d })) ∧
    dot c.velocity d ≤ dot (PM_Accelerate c d s a).velocity d ∧
    dot (PM_Accelerate c d s a).velocity d ≤ max (dot c.velocity d) s ∧
    (PM_Accelerate c d s a).velocity - (dot (PM_Accelerate c d s a).velocity d) • d
      = c.velocity - (dot c.velocity d) • d := by
  have hbr : (s - dot c.velocity d ≤ 0 → PM_Accelerate c d s a = c) ∧
      (0 < s - dot c.velocity d → PM_Accelerate c d s a = { c with velocity :=
        c.velocity + (min (a * c.frameTime * s) (s - dot c.velocity d)) • d }) := by
    constructor
    · intro h
      unfold PM_Accelerate
      rw [if_pos h]
    · intro h
      unfold PM_Accelerate
      simp only [ite_gt_right_eq_min]
      rw [if_neg (not_le.2 h)]
  refine ⟨hbr, ?_⟩
  by_cases h : s - dot c.velocity d ≤ 0
  · rw [hbr.1 h]
    refine ⟨le_refl _, le_max_left _ _, rfl⟩
  · have hpos : 0 < s - dot c.velocity d := not_le.1 h
    rw [hbr.2 hpos]
    have hk : dot (c.velocity + (min (a * c.frameTime * s) (s - dot c.velocity d)) • d) d
        = dot c.velocity d + min (a * c.frameTime * s) (s - dot c.velocity d) := by
      rw [dot_add_left, dot_smul_left, hd, mul_one]
    have hk0 : 0 ≤ min (a * c.frameTime * s) (s - dot c.velocity d) :=
      le_min (by positivity) (le_of_lt hpos)
    refine ⟨?_, ?_, ?_⟩
    · show dot c.velocity d ≤ dot (c.velocity + _ • d) d
      rw [hk]; linarith
    · show dot (c.velocity + _ • d) d ≤ max (dot c.velocity d) s
      rw [hk]
      have : min (a * c.frameTime * s) (s - dot c.velocity d) ≤ s - dot c.velocity d :=
        min_le_right _ _
      have hle : dot c.velocity d + min (a * c.frameTime * s) (s - dot c.velocity d) ≤ s := by
        linarith
      exact le_trans hle (le_max_right _ _)
    · show (c.velocity + _ • d) - (dot (c.velocity + _ • d) d) • d
        = c.velocity - (dot c.velocity d) • d
      rw [hk]
      ext <;> simp [Vec3.add_def, Vec3.sub_def, Vec3.smul_def] <;> ring

/-- Witness for C2: at the default context with a 128 Hz tick, unit wish
direction `(1,0,0)`, wish speed 1 and rate 10, the guarded conclusions hold. -/
theorem accelerate_spec_witness :
    (dot (⟨1, 0, 0⟩ : Vec3) ⟨1, 0, 0⟩ = 1) ∧ ((0 : ℝ) ≤ 1) ∧ ((0 : ℝ) ≤ 10) ∧
    (0 < cAirTick.frameTime) ∧
    (dot cAirTick.velocity ⟨1, 0, 0⟩ ≤
      dot (PM_Accelerate cAirTick ⟨1, 0, 0⟩ 1 10).velocity ⟨1, 0, 0⟩) :=
  ⟨by norm_num [Vec3.dot], by norm_num, by norm_num,
   by norm_num [cAirTick],
   (accelerate_spec cAirTick ⟨1, 0, 0⟩ 1 10 (by norm_num [Vec3.dot]) (by norm_num)
     (by norm_num) (by norm_num [cAirTick])).2.1⟩

/-- Counterexample for C2 as stated: with a negative acceleration rate (the
claim quantifies over every context and does not constrain the rate), the
increment `accel · frameTime · wishSpeed` is negative and `PM_Accelerate`
strictly decreases `dot(velocity, wishDir)`: at `cAir` (unit frame time not
needed; `frameTime = 1/2 > 0`), unit direction `(1,0,0)`, wish speed 1 and
rate `−1`, the projection drops from 0 to `−1/2`. -/
theorem accelerate_decrease_counterexample :
    dot (PM_Accelerate cAir ⟨1, 0, 0⟩ 1 (-1)).velocity ⟨1, 0, 0⟩
      < dot cAir.velocity ⟨1, 0, 0⟩ := by
  unfold PM_Accelerate cAir
  norm_num [Vec3.dot, Vec3.add_def, Vec3.smul_def]

/-! ## C3 — ground friction -/

theorem ite_lt_eq_max (x y : ℝ) : (if x < y then y else x) = max x y := by
  split_ifs with h
  · exact (max_eq_right h.le).symm
  · exact (max_eq_left (not_lt.1 h)).symm

/-- `PM_Friction` with its two clamping `if`s rewritten as `max`. -/
theorem friction_eq (c : PM) :
    PM_Friction c =
      if len c.velocity < pmove.STOP_EPSILON then c
      else
        let drop := if c.flags.onGroundFL then
          max (len c.velocity) c.moveVars.stopSpeed * c.moveVars.friction * c.frameTime
          else 0
        let ns := max (len c.velocity - drop) 0
        if ns ≠ len c.velocity then
          { c with velocity := (ns / len c.velocity) • c.velocity }
        else c := by
  unfold PM_Friction
  simp only [ite_lt_eq_max]

/-- C3 (amended): `PM_Friction` always rescales velocity by a nonnegative
factor (direction unchanged, never reversed); it leaves the state unchanged
when speed is below the stop epsilon or the on-ground flag is clear; while on
ground at speed ≥ epsilon the resulting speed is exactly
`max(speed − max(speed, stopSpeed) · frictionRate · frameTime, 0)`; and it
never increases speed *provided* `frictionRate · frameTime ≥ 0` (the
amendment: a negative rate or time step makes the drop negative). -/
theorem friction_spec (c : PM) :
    (∃ k : ℝ, 0 ≤ k ∧ (PM_Friction c).velocity = k • c.velocity) ∧
    (len c.velocity < pmove.STOP_EPSILON → PM_Friction c = c) ∧
    (c.flags.onGroundFL = false → PM_Friction c = c) ∧
    (c.flags.onGroundFL = true → pmove.STOP_EPSILON ≤ len c.velocity →
      len (PM_Friction c).velocity = max (len c.velocity -
        max (len c.velocity) c.moveVars.stopSpeed * c.moveVars.friction * c.frameTime) 0) ∧
    (0 ≤ c.moveVars.friction * c.frameTime →
      len (PM_Friction c).velocity ≤ len c.velocity) := by
  have he := friction_eq c
  by_cases hsp : len c.velocity < pmove.STOP_EPSILON
  · rw [if_pos hsp] at he
    refine ⟨⟨1, by norm_num, ?_⟩, fun _ => he, fun _ => he, ?_, ?_⟩
    · rw [he]; ext <;> simp [Vec3.smul_def]
    · intro _ hge; exact absurd hsp (not_lt.2 hge)
    · intro _; rw [he]
  · rw [if_neg hsp] at he
    have hge : pmove.STOP_EPSILON ≤ len c.velocity := not_lt.1 hsp
    have hspos : 0 < len c.velocity := by
      have h01 : (0 : ℝ) < pmove.STOP_EPSILON := by norm_num [pmove.STOP_EPSILON]
      linarith
    by_cases hg : c.flags.onGroundFL = true
    · simp only [hg, if_true] at he
      have hns0 : 0 ≤ max (len c.velocity -
          max (len c.velocity) c.moveVars.stopSpeed * c.moveVars.friction * c.frameTime) 0 :=
        le_max_right _ _
      by_cases hne : max (len c.velocity -
          max (len c.velocity) c.moveVars.stopSpeed * c.moveVars.friction * c.frameTime) 0
          = len c.velocity
      · rw [if_neg (by simpa using hne)] at he
        have hlen : len (PM_Friction c).velocity = max (len c.velocity -
            max (len c.velocity) c.moveVars.stopSpeed * c.moveVars.friction * c.frameTime) 0 := by
          rw [he]; exact hne.symm
        refine ⟨⟨1, by norm_num, ?_⟩, fun h => absurd h hsp, ?_, fun _ _ => hlen, ?_⟩
        · rw [he]; ext <;> simp [Vec3.smul_def]
        · intro hff; rw [hg] at hff; cases hff
        · intro _; rw [he]
      · rw [if_pos hne] at he
        have hvel : (PM_Friction c).velocity = (max (len c.velocity -
            max (len c.velocity) c.moveVars.stopSpeed * c.moveVars.friction * c.frameTime) 0
              / len c.velocity) • c.velocity := by rw [he]
        have hlen : len (PM_Friction c).velocity = max (len c.velocity -
            max (len c.velocity) c.moveVars.stopSpeed * c.moveVars.friction * c.frameTime) 0 := by
          rw [hvel, Vec3.len_smul, abs_of_nonneg (div_nonneg hns0 hspos.le),
            div_mul_cancel₀ _ (ne_of_gt hspos)]
        refine ⟨⟨_, div_nonneg hns0 hspos.le, hvel⟩, fun h => absurd h hsp, ?_,
          fun _ _ => hlen, ?_⟩
        · intro hff; rw [hg] at hff; cases hff
        · intro hfr
          rw [hlen]
          have hD0 : 0 ≤ max (len c.velocity) c.moveVars.stopSpeed
              * c.moveVars.friction * c.frameTime := by
            rw [mul_assoc]
            exact mul_nonneg (le_trans hspos.le (le_max_left _ _)) hfr
          exact max_le (by linarith) hspos.le
    · have hgf : c.flags.onGroundFL = false := by
        cases h : c.flags.onGroundFL
        · rfl
        · exact absurd h hg
      simp only [hgf, Bool.false_eq_true, if_false] at he
      have hns : max (len c.velocity - 0) 0 = len c.velocity := by
        rw [sub_zero]; exact max_eq_left hspos.le
      rw [hns, if_neg (by simp)] at he
      refine ⟨⟨1, by norm_num, ?_⟩, fun h => absurd h hsp, fun _ => he, ?_, ?_⟩
      · rw [he]; ext <;> simp [Vec3.smul_def]
      · intro hgt; rw [hgt] at hgf; cases hgf
      · intro _; rw [he]

/-- On-ground unit-speed context for the friction witness: default tuning
(friction 4, stopSpeed 100), 128 Hz tick. -/
def cFr : PM :=
  { flags := { onGroundFL := true }, velocity := ⟨1, 0, 0⟩, frameTime := 1 / 128 }

/-- On-ground unit-speed context with a negative friction rate. -/
def cFrNeg : PM :=
  { flags := { onGroundFL := true }, velocity := ⟨1, 0, 0⟩, frameTime := 1,
    moveVars := { friction := -1 } }

/-- Witness for C3: at `cFr` (on ground, speed 1, friction 4, 128 Hz) the
guarded conclusions of `friction_spec` hold; the resulting speed is the exact
drop formula and does not exceed the old speed. -/
theorem friction_spec_witness :
    (cFr.flags.onGroundFL = true) ∧ (pmove.STOP_EPSILON ≤ len cFr.velocity) ∧
    (0 ≤ cFr.moveVars.friction * cFr.frameTime) ∧
    (len (PM_Friction cFr).velocity = max (len cFr.velocity -
      max (len cFr.velocity) cFr.moveVars.stopSpeed * cFr.moveVars.friction * cFr.frameTime) 0) ∧
    (len (PM_Friction cFr).velocity ≤ len cFr.velocity) := by
  have hl : len cFr.velocity = 1 :=
    Vec3.len_known _ 1 (by norm_num) (by norm_num [Vec3.dot, cFr])
  exact ⟨rfl, by rw [hl]; norm_num [pmove.STOP_EPSILON], by norm_num [cFr],
    (friction_spec cFr).2.2.2.1 rfl (by rw [hl]; norm_num [pmove.STOP_EPSILON]),
    (friction_spec cFr).2.2.2.2 (by norm_num [cFr])⟩

/-- Counterexample for C3 as stated: the claim ranges over every context and
asserts friction "never increases speed", but with `friction = −1` (and
`frameTime = 1`) the drop is negative: at speed 1 on ground the new speed is
`max(1 − max(1,100)·(−1)·1, 0) = 101 > 1`. -/
theorem friction_increase_counterexample :
    len cFrNeg.velocity < len (PM_Friction cFrNeg).velocity := by
  have hl : len cFrNeg.velocity = 1 :=
    Vec3.len_known _ 1 (by norm_num) (by norm_num [Vec3.dot, cFrNeg])
  have he := friction_eq cFrNeg
  rw [hl] at he
  rw [if_neg (by norm_num [pmove.STOP_EPSILON])] at he
  simp only [show cFrNeg.flags.onGroundFL = true from rfl, if_true] at he
  norm_num [cFrNeg] at he
  have hvel : (PM_Friction cFrNeg).velocity = ⟨101, 0, 0⟩ := by
    have h2 := congrArg PM.velocity he
    norm_num [cFrNeg] at h2 ⊢
    exact h2
  have hlen : len (PM_Friction cFrNeg).velocity = 101 := by
    rw [hvel]
    exact Vec3.len_known _ 101 (by norm_num) (by norm_num [Vec3.dot])
  rw [hl, hlen]
  norm_num

/-! ## C4 — sweep stuck in solid -/

/-- C4: if the first sweep of `PM_FlyMove` (from `origin` toward
`origin + frameTime·velocity`) reports `allSolid`, the function returns with
velocity zeroed and `origin` exactly as it was on entry, for every prior
velocity. (With zero velocity the loop exits before sweeping and the
conclusion holds trivially.) -/
theorem flymove_allsolid_spec (tf : Option TraceFunc) (c : PM)
    (h : (PM_PlayerTrace tf c c.origin (c.origin + c.frameTime • c.velocity)).allSolid
      = true) :
    (PM_FlyMove tf c).1.velocity = 0 ∧ (PM_FlyMove tf c).1.origin = c.origin := by
  unfold PM_FlyMove
  rw [show pmove.MAX_BUMPS = 3 + 1 from rfl]
  unfold flyStep
  by_cases hv : len c.velocity = 0
  · rw [if_pos hv]
    exact ⟨(Vec3.len_eq_zero_iff _).1 hv, rfl⟩
  · rw [if_neg hv, if_pos h]
    exact ⟨rfl, rfl⟩

/-- A moving context: nonzero velocity, 128 Hz tick. -/
def cMoving : PM := { velocity := ⟨3000, 0, 0⟩, frameTime := 1 / 128 }

/-- A trace callback that always reports a sweep embedded in solid. -/
def tfAllSolid : Option TraceFunc :=
  some fun _ _ dst _ => { allSolid := true, startSolid := true, fraction := 0, endPos := dst }

/-- Witness for C4: a fast-moving context (`cMoving`, velocity `(3000,0,0)`)
swept by the always-embedded callback ends the fly move with zero velocity
and its entry origin. -/
theorem flymove_allsolid_spec_witness :
    ((PM_PlayerTrace tfAllSolid cMoving cMoving.origin
        (cMoving.origin + cMoving.frameTime • cMoving.velocity)).allSolid = true) ∧
    (PM_FlyMove tfAllSolid cMoving).1.velocity = 0 ∧
    (PM_FlyMove tfAllSolid cMoving).1.origin = cMoving.origin :=
  ⟨rfl, flymove_allsolid_spec tfAllSolid cMoving rfl⟩

/-! ## C7 — on-ground flag vs onGround identifier -/

/-- A trace callback reporting a half-way hit on a flat floor belonging to the
world (entity −1, exactly as documented in `TraceResult`). -/
def tfWorldGround : Option TraceFunc :=
  some fun _ _ dst _ =>
    { fraction := 1 / 2, endPos := dst, planeNormal := ⟨0, 0, 1⟩, entity := -1 }

/-- C7 failing input: standing on *world* geometry (the trace hits a flat
floor with `entity = -1`), `PM_CategorizePosition` sets the on-ground flag
while leaving `onGround = -1` — the header documents `onGround = -1` as "in
air", so the bit-set ⇔ identifier ≠ −1 consistency claimed by the spec is
violated by the code. -/
theorem categorize_world_ground_bug :
    (PM_CategorizePosition tfWorldGround pmDefault).flags.onGroundFL = true ∧
    (PM_CategorizePosition tfWorldGround pmDefault).onGround = -1 := by
  unfold PM_CategorizePosition PM_PlayerTrace tfWorldGround pmDefault
  norm_num [pmove.MAX_FLOOR_NORMAL, pmove.GROUND_CHECK_DIST]

/-! ## C8 — duck timer -/

/-- C8 (amended): starting from `duckTime ≥ 0` (and a nonnegative frame
time), one `PM_Duck` lowers `duckTime` by at most one `frameTime` below zero
(so `duckTime ≥ −frameTime` afterwards, *not* `≥ 0` as claimed: the countdown
subtracts before testing), and whenever the resulting `duckTime` is ≤ 0 the
`inDuck` flag is false. -/
theorem duckTransition_bounds (c1 : PM) (h0 : 0 ≤ c1.duckTime)
    (hft : 0 ≤ c1.frameTime) :
    -c1.frameTime ≤ (PM_DuckTransition c1).duckTime ∧
    ((PM_DuckTransition c1).duckTime ≤ 0 → (PM_DuckTransition c1).inDuck = false) := by
  simp only [PM_DuckTransition]
  by_cases h1 : c1.inDuck = true
  · rw [if_pos h1]
    split_ifs with h2
    · refine ⟨?_, fun _ => by simp⟩
      simp only []
      linarith
    · refine ⟨?_, fun hle => ?_⟩
      · simp only []
        linarith
      · exfalso
        simp only [not_or] at h2
        simp only [] at hle
        exact h2.1 hle
  · rw [if_neg h1]
    refine ⟨by linarith, fun _ => ?_⟩
    cases hb : c1.inDuck
    · rfl
    · exact absurd hb h1

theorem duckButtons_duckTime (tf : Option TraceFunc) (c : PM) :
    (PM_DuckButtons tf c).duckTime = c.duckTime ∨
    (PM_DuckButtons tf c).duckTime = hull.DUCK_TIME := by
  simp only [PM_DuckButtons]
  split_ifs <;> simp

theorem duckButtons_frameTime (tf : Option TraceFunc) (c : PM) :
    (PM_DuckButtons tf c).frameTime = c.frameTime := by
  simp only [PM_DuckButtons]
  split_ifs <;> simp

theorem duck_spec (tf : Option TraceFunc) (c : PM)
    (h0 : 0 ≤ c.duckTime) (hft : 0 ≤ c.frameTime) :
    -c.frameTime ≤ (PM_Duck tf c).duckTime ∧
    ((PM_Duck tf c).duckTime ≤ 0 → (PM_Duck tf c).inDuck = false) := by
  have hdt : 0 ≤ (PM_DuckButtons tf c).duckTime := by
    rcases duckButtons_duckTime tf c with h | h <;> rw [h]
    · exact h0
    · norm_num [hull.DUCK_TIME]
  have hft1 : 0 ≤ (PM_DuckButtons tf c).frameTime := by
    rw [duckButtons_frameTime]; exact hft
  have := duckTransition_bounds (PM_DuckButtons tf c) hdt hft1
  rw [duckButtons_frameTime] at this
  exact this

/-- Mid-transition ducking context whose remaining `duckTime` (0.1 s) is
smaller than the frame time (0.2 s). -/
def cDuck : PM :=
  { buttons := { duck := true }, inDuck := true, duckTime := 1 / 10,
    frameTime := 1 / 5 }

/-- Witness for C8: the default context (duck timer 0, frame time 0) satisfies
the amended bounds. -/
theorem duck_spec_witness :
    (0 ≤ pmDefault.duckTime) ∧ (0 ≤ pmDefault.frameTime) ∧
    (-pmDefault.frameTime ≤ (PM_Duck none pmDefault).duckTime ∧
      ((PM_Duck none pmDefault).duckTime ≤ 0 → (PM_Duck none pmDefault).inDuck = false)) :=
  ⟨by norm_num [pmDefault], by norm_num [pmDefault],
   duck_spec none pmDefault (by norm_num [pmDefault]) (by norm_num [pmDefault])⟩

/-- Counterexample for C8 as stated: at `cDuck` the timer is nonnegative
(0.1) before `PM_Duck` but negative (−0.1) afterwards — the countdown
subtracts a full `frameTime` before testing for completion and never clamps. -/
theorem duck_negative_counterexample :
    0 ≤ cDuck.duckTime ∧ (PM_Duck none cDuck).duckTime < 0 := by
  constructor
  · norm_num [cDuck]
  · unfold PM_Duck PM_DuckButtons PM_DuckTransition cDuck
    norm_num

/-! ## Frame lemmas: fields each routine leaves untouched -/

@[simp] theorem angleVectors_flags (c : PM) : (PM_AngleVectors c).flags = c.flags := rfl

@[simp] theorem angleVectors_dead (c : PM) : (PM_AngleVectors c).dead = c.dead := rfl

@[simp] theorem angleVectors_waterLevel (c : PM) :
    (PM_AngleVectors c).waterLevel = c.waterLevel := rfl

@[simp] theorem angleVectors_moveVars (c : PM) :
    (PM_AngleVectors c).moveVars = c.moveVars := rfl

@[simp] theorem angleVectors_velocity (c : PM) :
    (PM_AngleVectors c).velocity = c.velocity := rfl

@[simp] theorem angleVectors_buttons (c : PM) :
    (PM_AngleVectors c).buttons = c.buttons := rfl

@[simp] theorem angleVectors_oldButtons (c : PM) :
    (PM_AngleVectors c).oldButtons = c.oldButtons := rfl

@[simp] theorem angleVectors_onGround (c : PM) :
    (PM_AngleVectors c).onGround = c.onGround := rfl

@[simp] theorem angleVectors_duckTime (c : PM) :
    (PM_AngleVectors c).duckTime = c.duckTime := rfl

@[simp] theorem angleVectors_inDuck (c : PM) :
    (PM_AngleVectors c).inDuck = c.inDuck := rfl

@[simp] theorem angleVectors_frameTime (c : PM) :
    (PM_AngleVectors c).frameTime = c.frameTime := rfl

@[simp] theorem angleVectors_origin (c : PM) :
    (PM_AngleVectors c).origin = c.origin := rfl

@[simp] theorem categorize_frozen (tf : Option TraceFunc) (c : PM) :
    (PM_CategorizePosition tf c).flags.frozen = c.flags.frozen := by
  simp only [PM_CategorizePosition]; split_ifs <;> rfl

@[simp] theorem categorize_dead (tf : Option TraceFunc) (c : PM) :
    (PM_CategorizePosition tf c).dead = c.dead := by
  simp only [PM_CategorizePosition]; split_ifs <;> rfl

@[simp] theorem categorize_waterLevel (tf : Option TraceFunc) (c : PM) :
    (PM_CategorizePosition tf c).waterLevel = c.waterLevel := by
  simp only [PM_CategorizePosition]; split_ifs <;> rfl

@[simp] theorem categorize_moveVars (tf : Option TraceFunc) (c : PM) :
    (PM_CategorizePosition tf c).moveVars = c.moveVars := by
  simp only [PM_CategorizePosition]; split_ifs <;> rfl

@[simp] theorem categorize_velocity (tf : Option TraceFunc) (c : PM) :
    (PM_CategorizePosition tf c).velocity = c.velocity := by
  simp only [PM_CategorizePosition]; split_ifs <;> rfl

@[simp] theorem categorize_buttons (tf : Option TraceFunc) (c : PM) :
    (PM_CategorizePosition tf c).buttons = c.buttons := by
  simp only [PM_CategorizePosition]; split_ifs <;> rfl

@[simp] theorem categorize_oldButtons (tf : Option TraceFunc) (c : PM) :
    (PM_CategorizePosition tf c).oldButtons = c.oldButtons := by
  simp only [PM_CategorizePosition]; split_ifs <;> rfl

@[simp] theorem categorize_duckTime (tf : Option TraceFunc) (c : PM) :
    (PM_CategorizePosition tf c).duckTime = c.duckTime := by
  simp only [PM_CategorizePosition]; split_ifs <;> rfl

@[simp] theorem categorize_inDuck (tf : Option TraceFunc) (c : PM) :
    (PM_CategorizePosition tf c).inDuck = c.inDuck := by
  simp only [PM_CategorizePosition]; split_ifs <;> rfl

@[simp] theorem categorize_frameTime (tf : Option TraceFunc) (c : PM) :
    (PM_CategorizePosition tf c).frameTime = c.frameTime := by
  simp only [PM_CategorizePosition]; split_ifs <;> rfl

@[simp] theorem duckButtons_moveVars (tf : Option TraceFunc) (c : PM) :
    (PM_DuckButtons tf c).moveVars = c.moveVars := by
  simp only [PM_DuckButtons]; split_ifs <;> rfl

@[simp] theorem duckButtons_waterLevel (tf : Option TraceFunc) (c : PM) :
    (PM_DuckButtons tf c).waterLevel = c.waterLevel := by
  simp only [PM_DuckButtons]; split_ifs <;> rfl

@[simp] theorem duckButtons_dead (tf : Option TraceFunc) (c : PM) :
    (PM_DuckButtons tf c).dead = c.dead := by
  simp only [PM_DuckButtons]; split_ifs <;> rfl

@[simp] theorem duckButtons_buttons (tf : Option TraceFunc) (c : PM) :
    (PM_DuckButtons tf c).buttons = c.buttons := by
  simp only [PM_DuckButtons]; split_ifs <;> rfl

@[simp] theorem duckTransition_moveVars (c : PM) :
    (PM_DuckTransition c).moveVars = c.moveVars := by
  simp only [PM_DuckTransition]; split_ifs <;> rfl

@[simp] theorem duckTransition_waterLevel (c : PM) :
    (PM_DuckTransition c).waterLevel = c.waterLevel := by
  simp only [PM_DuckTransition]; split_ifs <;> rfl

@[simp] theorem duckTransition_dead (c : PM) :
    (PM_DuckTransition c).dead = c.dead := by
  simp only [PM_DuckTransition]; split_ifs <;> rfl

@[simp] theorem duckTransition_buttons (c : PM) :
    (PM_DuckTransition c).buttons = c.buttons := by
  simp only [PM_DuckTransition]; split_ifs <;> rfl

@[simp] theorem checkLadder_fst_moveVars (c : PM) :
    (PM_CheckLadder c).1.moveVars = c.moveVars := rfl

@[simp] theorem checkLadder_fst_waterLevel (c : PM) :
    (PM_CheckLadder c).1.waterLevel = c.waterLevel := rfl

@[simp] theorem checkLadder_fst_flags (c : PM) :
    (PM_CheckLadder c).1.flags = c.flags := rfl

@[simp] theorem checkLadder_fst_buttons (c : PM) :
    (PM_CheckLadder c).1.buttons = c.buttons := rfl

@[simp] theorem checkLadder_snd (c : PM) : (PM_CheckLadder c).2 = false := rfl

@[simp] theorem jump_moveVars (c : PM) : (PM_Jump c).moveVars = c.moveVars := by
  simp only [PM_Jump]; split_ifs <;> rfl

@[simp] theorem friction_moveVars (c : PM) : (PM_Friction c).moveVars = c.moveVars := by
  simp only [PM_Friction]; split_ifs <;> rfl

@[simp] theorem accelerate_moveVars (c : PM) (d : Vec3) (s a : ℝ) :
    (PM_Accelerate c d s a).moveVars = c.moveVars := by
  simp only [PM_Accelerate]; split_ifs <;> rfl

@[simp] theorem airAccelerate_moveVars (c : PM) (d : Vec3) (s a : ℝ) :
    (PM_AirAccelerate c d s a).moveVars = c.moveVars := by
  simp only [PM_AirAccelerate]; split_ifs <;> rfl

@[simp] theorem addGravity_moveVars (c : PM) : (PM_AddGravity c).moveVars = c.moveVars := rfl

@[simp] theorem checkVelocity_moveVars (c : PM) :
    (PM_CheckVelocity c).moveVars = c.moveVars := rfl

@[simp] theorem checkFalling_moveVars (c : PM) :
    (PM_CheckFalling c).moveVars = c.moveVars := by
  simp only [PM_CheckFalling]; split_ifs <;> rfl

@[simp] theorem checkFalling_velocity (c : PM) :
    (PM_CheckFalling c).velocity = c.velocity := by
  simp only [PM_CheckFalling]; split_ifs <;> rfl

theorem flyStep_fst_moveVars (tf : Option TraceFunc) (ov : Vec3) :
    ∀ (fuel : ℕ) (pm : PM) (timeLeft : ℝ) (planes : List Vec3) (blocked : ℕ),
      (flyStep tf ov fuel pm timeLeft planes blocked).1.moveVars = pm.moveVars := by
  intro fuel
  induction fuel with
  | zero => intro pm t pl b; rfl
  | succ n ih =>
    intro pm t pl b
    simp only [flyStep]
    split_ifs <;> try (simp [ih]; done)
    all_goals (rw [apply_ite (fun q : PM × ℕ => q.1.moveVars)]; simp [ih])

@[simp] theorem flyMove_fst_moveVars (tf : Option TraceFunc) (c : PM) :
    (PM_FlyMove tf c).1.moveVars = c.moveVars := by
  unfold PM_FlyMove
  exact flyStep_fst_moveVars tf c.velocity _ c c.frameTime [] 0

@[simp] theorem stepMove_moveVars (tf : Option TraceFunc) (c : PM) (dest : Vec3)
    (trace : TraceResult) : (PM_StepMove tf c dest trace).moveVars = c.moveVars := by
  simp only [PM_StepMove]; split_ifs <;> rfl

@[simp] theorem walkMove_moveVars (tf : Option TraceFunc) (c : PM) :
    (PM_WalkMove tf c).moveVars = c.moveVars := by
  simp only [PM_WalkMove]
  split_ifs <;> simp

@[simp] theorem airMove_moveVars (tf : Option TraceFunc) (c : PM) :
    (PM_AirMove tf c).moveVars = c.moveVars := by
  simp only [PM_AirMove]
  simp

/-! ## C10 — the ladder mode is dead code -/

/-- C10: `PM_CheckLadder` always returns `false` and clears `onLadder`;
consequently `PM_PlayerMove` coincides with the dispatcher in which the
ladder branch has been removed (`PM_PlayerMoveNoLadder`) — `PM_LadderMove` is
unreachable from the main entry point. -/
theorem checkLadder_spec (tf : Option TraceFunc) (c : PM) :
    (PM_CheckLadder c).2 = false ∧ (PM_CheckLadder c).1.onLadder = false ∧
    PM_PlayerMove tf c = PM_PlayerMoveNoLadder tf c := by
  refine ⟨rfl, rfl, ?_⟩
  unfold PM_PlayerMove PM_PlayerMoveNoLadder
  rfl

/-! ## C6 — determinism -/

/-- C6: the kernel is a pure function of the context and the trace callback's
results: two invocations on structurally equal contexts whose callbacks return
equal results on every query produce structurally equal outputs. -/
theorem playerMove_deterministic (f g : TraceFunc) (c c' : PM)
    (htr : ∀ (pm : PM) (start dst : Vec3) (h : ℤ), f pm start dst h = g pm start dst h)
    (hc : c = c') :
    PM_PlayerMove (some f) c = PM_PlayerMove (some g) c' := by
  have hfg : f = g :=
    funext fun pm => funext fun s => funext fun d => funext fun h => htr pm s d h
  rw [hfg, hc]

/-- A simple concrete trace callback (full-fraction everywhere). -/
def tfConst : TraceFunc := fun _ _ dst _ => { fraction := 1, endPos := dst }

/-- Witness for C6: two invocations with the same concrete callback and
context agree. -/
theorem playerMove_deterministic_witness :
    PM_PlayerMove (some tfConst) pmDefault = PM_PlayerMove (some tfConst) pmDefault :=
  playerMove_deterministic tfConst tfConst pmDefault pmDefault (fun _ _ _ _ => rfl) rfl

/-! ## C9 — the frozen path -/

/-- C9 (amended): with the frozen flag set, `PM_PlayerMove` returns right
after the per-tick basis-vector recomputation and position categorization:
the result is exactly `PM_CategorizePosition tf (PM_AngleVectors c)` — so
velocity, duck state, buttons and intents are unchanged, but the
forward/right/up vectors, the on-ground flag bit, the `onGround` identifier
and (on a ground snap) `origin` may differ from their input values. -/
theorem playerMove_frozen_spec (tf : Option TraceFunc) (c : PM)
    (h : c.flags.frozen = true) :
    PM_PlayerMove tf c = PM_CategorizePosition tf (PM_AngleVectors c) ∧
    (PM_PlayerMove tf c).velocity = c.velocity ∧
    (PM_PlayerMove tf c).duckTime = c.duckTime ∧
    (PM_PlayerMove tf c).inDuck = c.inDuck ∧
    (PM_PlayerMove tf c).buttons = c.buttons ∧
    (PM_PlayerMove tf c).oldButtons = c.oldButtons ∧
    (PM_PlayerMove tf c).waterLevel = c.waterLevel ∧
    (PM_PlayerMove tf c).dead = c.dead := by
  have hfz : (PM_CategorizePosition tf (PM_AngleVectors c)).flags.frozen = true := by
    rw [categorize_frozen, angleVectors_flags]; exact h
  have he : PM_PlayerMove tf c = PM_CategorizePosition tf (PM_AngleVectors c) := by
    simp only [PM_PlayerMove]
    rw [if_pos hfz]
  refine ⟨he, ?_, ?_, ?_, ?_, ?_, ?_, ?_⟩ <;> rw [he] <;> simp

/-- Frozen context whose categorization visibly changes it: the on-ground bit
is set and `onGround = 7` on entry, but a full-fraction ground probe clears
both. -/
def cFrozen : PM := { flags := { frozen := true, onGroundFL := true }, onGround := 7 }

/-- Default-valued context with only the frozen flag set. -/
def cFrozenW : PM := { flags := { frozen := true } }

/-- Witness for C9: at `cFrozenW` the frozen hypothesis holds and velocity is
unchanged by the tick. -/
theorem playerMove_frozen_spec_witness :
    (cFrozenW.flags.frozen = true) ∧
    (PM_PlayerMove none cFrozenW).velocity = cFrozenW.velocity :=
  ⟨rfl, (playerMove_frozen_spec none cFrozenW rfl).2.1⟩

/-- Counterexample for C9 as stated: the claim says a frozen tick returns the
context *completely* unchanged, but `PM_AngleVectors` and
`PM_CategorizePosition` run before the frozen check: at `cFrozen` (airborne
probe returns full fraction) the tick clears `onGround` from 7 to −1. -/
theorem playerMove_frozen_counterexample : PM_PlayerMove none cFrozen ≠ cFrozen := by
  have hfz : (PM_CategorizePosition none (PM_AngleVectors cFrozen)).flags.frozen = true := by
    rw [categorize_frozen, angleVectors_flags]; rfl
  have he : PM_PlayerMove none cFrozen = PM_CategorizePosition none (PM_AngleVectors cFrozen) := by
    simp only [PM_PlayerMove]
    rw [if_pos hfz]
  have hog : (PM_CategorizePosition none (PM_AngleVectors cFrozen)).onGround = -1 := by
    simp only [PM_CategorizePosition, PM_PlayerTrace]
    norm_num
  intro h
  have h2 := congrArg PM.onGround h
  rw [he, hog] at h2
  have h7 : cFrozen.onGround = 7 := rfl
  rw [h7] at h2
  norm_num at h2

/-! ## C5 — the end-of-tick velocity clamp -/

@[simp] theorem duck_moveVars (tf : Option TraceFunc) (c : PM) :
    (PM_Duck tf c).moveVars = c.moveVars := by
  unfold PM_Duck
  rw [duckTransition_moveVars, duckButtons_moveVars]

@[simp] theorem duck_waterLevel (tf : Option TraceFunc) (c : PM) :
    (PM_Duck tf c).waterLevel = c.waterLevel := by
  unfold PM_Duck
  rw [duckTransition_waterLevel, duckButtons_waterLevel]

@[simp] theorem duck_dead (tf : Option TraceFunc) (c : PM) :
    (PM_Duck tf c).dead = c.dead := by
  unfold PM_Duck
  rw [duckTransition_dead, duckButtons_dead]

theorem clampComp_bounds (m v : ℝ) (hm : 0 ≤ m) :
    -m ≤ clampComp m v ∧ clampComp m v ≤ m := by
  simp only [clampComp]
  split_ifs <;> constructor <;> linarith

@[simp] theorem checkVelocity_velocity (c : PM) :
    (PM_CheckVelocity c).velocity =
      ⟨clampComp c.moveVars.maxVelocity c.velocity.x,
       clampComp c.moveVars.maxVelocity c.velocity.y,
       clampComp c.moveVars.maxVelocity c.velocity.z⟩ := rfl

/-- C5 (amended): on every tick that is not frozen, not dead and below
waist-level water (the ladder path is unreachable, see the C10 theorem), the
ground/air pipeline ends in `PM_CheckVelocity`, so each component of the
resulting velocity lies in `[-maxVelocity, maxVelocity]` whenever
`maxVelocity ≥ 0`. The frozen, dead and water paths return before the clamp —
that is the amendment (see the counterexample). -/
theorem playerMove_velocity_clamped (tf : Option TraceFunc) (c : PM)
    (hf : c.flags.frozen = false) (hd : c.dead = false) (hw : c.waterLevel < 2)
    (hm : 0 ≤ c.moveVars.maxVelocity) :
    -c.moveVars.maxVelocity ≤ (PM_PlayerMove tf c).velocity.x ∧
    (PM_PlayerMove tf c).velocity.x ≤ c.moveVars.maxVelocity ∧
    -c.moveVars.maxVelocity ≤ (PM_PlayerMove tf c).velocity.y ∧
    (PM_PlayerMove tf c).velocity.y ≤ c.moveVars.maxVelocity ∧
    -c.moveVars.maxVelocity ≤ (PM_PlayerMove tf c).velocity.z ∧
    (PM_PlayerMove tf c).velocity.z ≤ c.moveVars.maxVelocity := by
  simp only [PM_PlayerMove]
  split_ifs <;>
    first
      | (exfalso; simp_all; done)
      | (exfalso; simp_all; omega)
      | (refine ⟨?_, ?_, ?_, ?_, ?_, ?_⟩ <;>
          simp only [checkVelocity_velocity, checkFalling_moveVars, checkFalling_velocity,
            categorize_moveVars, walkMove_moveVars, airMove_moveVars, jump_moveVars,
            duck_moveVars, checkLadder_fst_moveVars, angleVectors_moveVars,
            duckButtons_moveVars, duckTransition_moveVars] <;>
          first
            | exact (clampComp_bounds _ _ hm).1
            | exact (clampComp_bounds _ _ hm).2)

/-- Frozen context carrying a velocity far beyond `maxVelocity = 2000`. -/
def cFast : PM := { flags := { frozen := true }, velocity := ⟨3000, 0, 0⟩ }

/-- Witness for C5: the default context takes the ground/air path and its
post-tick x-velocity respects the lower clamp bound. -/
theorem playerMove_velocity_clamped_witness :
    (pmDefault.flags.frozen = false) ∧ (pmDefault.dead = false) ∧
    (pmDefault.waterLevel < 2) ∧ (0 ≤ pmDefault.moveVars.maxVelocity) ∧
    (-pmDefault.moveVars.maxVelocity ≤ (PM_PlayerMove none pmDefault).velocity.x) :=
  ⟨rfl, rfl, by norm_num [pmDefault], by norm_num [pmDefault],
   (playerMove_velocity_clamped none pmDefault rfl rfl (by norm_num [pmDefault])
     (by norm_num [pmDefault])).1⟩

/-- Counterexample for C5 as stated: on a *frozen* tick `PM_PlayerMove`
returns before `PM_CheckVelocity` runs, so an out-of-range velocity survives
the tick: `velocity.x` stays 3000 although `maxVelocity` is 2000. (The dead
and waist-deep-water paths return before the clamp in the same way.) -/
theorem playerMove_clamp_counterexample :
    (PM_PlayerMove none cFast).velocity.x = 3000 ∧
    cFast.moveVars.maxVelocity = 2000 ∧
    ¬ ((PM_PlayerMove none cFast).velocity.x ≤ cFast.moveVars.maxVelocity) := by
  have hfz : (PM_CategorizePosition none (PM_AngleVectors cFast)).flags.frozen = true := by
    rw [categorize_frozen, angleVectors_flags]; rfl
  have he : PM_PlayerMove none cFast
      = PM_CategorizePosition none (PM_AngleVectors cFast) := by
    simp only [PM_PlayerMove]
    rw [if_pos hfz]
  have hv : (PM_PlayerMove none cFast).velocity.x = 3000 := by
    rw [he, categorize_velocity, angleVectors_velocity]; rfl
  refine ⟨hv, rfl, ?_⟩
  rw [hv]
  norm_num [cFast]
